import Mathlib

/-!
Shallow embedding of the concurrency and resource-safety core of the
ESP_Rehab_Hand_Exoskeleton firmware, together with proofs settling the
spec claims about it.

Components embedded (from src/):
* `StaticBLEMemory` (src/memory/StaticBLEMemory.cpp) - the partitioned
  five-arena allocator.
* `FreeRTOSMgr` (src/hardware/FreeRTOSManager.cpp) - the primitive registry.
* `I2CMgr` (src/hardware/I2CManager.cpp) - the bus health/recovery logic.
* `Watchdog` (src/network/NetworkWatchdogManager.cpp) - the network
  reliability watchdog.

Modelling conventions:
* machine integers (`size_t`, `uint32_t`, `unsigned long`) are modelled as
  `Nat`; `millis()` timestamps are ideal non-wrapping naturals;
* the float comparisons of the source (`getSuccessRate() < 0.5f`,
  `getFreeSize() < getTotalSize() * 0.1`, the reliability buckets
  1.0/0.8/0.6/0.3 against thresholds 0.95/0.85/0.70) are modelled as the
  equivalent exact rational comparisons on integers, which agree with the
  float code away from astronomically large counters;
* raw pointers into an arena are modelled as (arena index, byte offset)
  pairs - the five arenas are distinct statically allocated arrays, so a
  raw address determines the pair; arena memory is modelled as a map from
  byte offset to the block header stored there (the allocator never reads
  payload bytes);
* `Logger` calls, alert strings and the diagnostic ring buffer
  (`recentRecoveries`) are side effects with no bearing on the claims and
  are not modelled;
* C functions returning `void` with out-of-band effects are modelled as
  state-to-state functions returning the mutated state plus their result.
-/

set_option maxRecDepth 100000

/-! # Part 1: StaticBLEMemory - the partitioned allocator

Translated from src/src/memory/StaticBLEMemory.cpp and StaticBLEMemory.h.
The identifier `initialized` of the source is rendered `inited`.
-/

namespace StaticBLEMemory

/-- BLE_MEMORY_ALIGNMENT from StaticBLEMemory.h (4-byte alignment). -/
def BLE_MEMORY_ALIGNMENT : Nat := 4

/-- BLE_MEMORY_MAGIC from StaticBLEMemory.h. -/
def BLE_MEMORY_MAGIC : Nat := 0xBEEFCAFE

/-- BLE_STATIC_POOL_SIZE from StaticBLEMemory.h (8 KiB total). -/
def BLE_STATIC_POOL_SIZE : Nat := 8192

/-- sizeof(BLEMemoryBlock) on the 32-bit ESP32 target:
size_t size (4) + bool allocated (1, padded to 4) + uint32_t magic (4) +
void* next (4) = 16 bytes. -/
def HEADER_SIZE : Nat := 16

/-- struct BLEMemoryBlock: the block header.  `next` is the free-list link;
a raw `void*` in the source, modelled as the byte offset (inside the same
arena) of the next free block, `none` for the null pointer. -/
structure BLEMemoryBlock where
  size : Nat
  allocated : Bool
  magic : Nat
  next : Option Nat
deriving Repr, DecidableEq

/-- Zeroed memory read as a block header (the pools are memset to 0 by
initializePool / resetPool): size 0, allocated false, magic 0, next null. -/
def zeroBlock : BLEMemoryBlock := ⟨0, false, 0, none⟩

/-- struct PoolManager.  The `pool` base pointer is implicit; `headers o`
is the block header stored at byte offset `o` of the arena. -/
structure PoolManager where
  size : Nat
  used : Nat
  freeList : Option Nat
  allocationCount : Nat
  inited : Bool
  headers : Nat → BLEMemoryBlock

/-- Store a block header at byte offset `off`. -/
def writeHeader (p : PoolManager) (off : Nat) (b : BLEMemoryBlock) : PoolManager :=
  { p with headers := fun o => if o = off then b else p.headers o }

/-- StaticBLEMemory::alignSize: `(size + ALIGN - 1) & ~(ALIGN - 1)` with
ALIGN = 4, i.e. clearing the low two bits of size+3. -/
def alignSize (size : Nat) : Nat := (size + 3) / 4 * 4

/-- StaticBLEMemory::validateBlock (the null-pointer guard cannot arise in
the model): magic must match, size must be nonzero and at most the total
pool size.  Note the source does not consult `allocated`. -/
def validateBlock (b : BLEMemoryBlock) : Bool :=
  b.magic = BLE_MEMORY_MAGIC && b.size ≠ 0 && b.size ≤ BLE_STATIC_POOL_SIZE

/-- StaticBLEMemory::isPointerInPool: address-range containment
`poolStart <= addr < poolStart + size` becomes `off < size`. -/
def isPointerInPool (p : PoolManager) (off : Nat) : Bool :=
  p.inited && off < p.size

/-- StaticBLEMemory::addToFreeList: push the block at `off` on the front of
the free list (`block->next = pool->freeList; pool->freeList = block`). -/
def addToFreeList (p : PoolManager) (off : Nat) : PoolManager :=
  let p1 := writeHeader p off { p.headers off with next := p.freeList }
  { p1 with freeList := some off }

/-- Loop body of StaticBLEMemory::removeFromFreeList: walk the chain from
`cur` keeping the predecessor `prev`, unlink and return the first block
whose stored size is at least `size`.  The C while-loop has no bound; on
the acyclic lists of reachable states it visits each node at most once, so
fuel `p.size + 1` never runs out (offsets are distinct naturals below
`p.size`); fuel exhaustion (only possible on a cyclic list, where the C
code would not terminate) is mapped to `none`. -/
def removeAux (size : Nat) (p : PoolManager) :
    Nat → Option Nat → Option Nat → Option (Nat × PoolManager)
  | _, _, none => none
  | 0, _, some _ => none
  | fuel + 1, prev, some cur =>
    let blk := p.headers cur
    if size ≤ blk.size then
      match prev with
      | none => some (cur, { p with freeList := blk.next })
      | some pr => some (cur, writeHeader p pr { p.headers pr with next := blk.next })
    else
      removeAux size p fuel (some cur) blk.next

/-- StaticBLEMemory::removeFromFreeList. -/
def removeFromFreeList (p : PoolManager) (size : Nat) : Option (Nat × PoolManager) :=
  match p.freeList with
  | none => none
  | some _ => removeAux size p (p.size + 1) none p.freeList

/-- StaticBLEMemory::allocateFromPool.  Returns the payload offset
(header offset + HEADER_SIZE) and the mutated pool, or `none` with the
pool untouched.  The size parameter is already aligned by the callers.
Note the quirk of the source: the free-list search is asked for
`totalSize` (payload + header) while free blocks store their payload
size, and `used` is not increased when a free-list block is reused. -/
def allocateFromPool (p : PoolManager) (size : Nat) : Option (Nat × PoolManager) :=
  if ¬p.inited ∨ size = 0 then none
  else
    let totalSize := size + HEADER_SIZE
    if p.size < p.used + totalSize then none
    else
      match removeFromFreeList p totalSize with
      | some (off, p1) =>
        let p2 := writeHeader p1 off ⟨size, true, BLE_MEMORY_MAGIC, none⟩
        some (off + HEADER_SIZE, { p2 with allocationCount := p2.allocationCount + 1 })
      | none =>
        -- no suitable free block: carve from the end of the pool
        -- (the source re-checks the bound here; it is the same test)
        if p.size < p.used + totalSize then none
        else
          let off := p.used
          let p1 := { p with used := p.used + totalSize }
          let p2 := writeHeader p1 off ⟨size, true, BLE_MEMORY_MAGIC, none⟩
          some (off + HEADER_SIZE, { p2 with allocationCount := p2.allocationCount + 1 })

/-- Result of a deallocation attempt, separating the two rejection paths of
the source: `notInPool` (early return, no alert) and `corrupt`
(corruptionDetected is raised).  `skipped` is the top-level early return
when the manager is not initialized. -/
inductive FreeOutcome
  | skipped
  | notInPool
  | corrupt
  | freed
deriving Repr, DecidableEq

/-- StaticBLEMemory::deallocateFromPool.  `off` is the payload offset of
the pointer being freed; the header sits HEADER_SIZE bytes before it.
(The model is meaningful for `off ≥ HEADER_SIZE`; a smaller `off` would
read bytes before the arena in the C code.)  `coalesceFreeBlocks` is a
no-op in the source and is omitted. -/
def deallocateFromPool (p : PoolManager) (off : Nat) : FreeOutcome × PoolManager :=
  if ¬isPointerInPool p off then (.notInPool, p)
  else
    let hoff := off - HEADER_SIZE
    let blk := p.headers hoff
    if ¬validateBlock blk then (.corrupt, p)  -- corruptionDetected(pool, ptr)
    else
      let p1 := writeHeader p hoff { blk with allocated := false }
      (.freed, addToFreeList p1 hoff)

/-- StaticBLEMemory::initializePool (the memory is memset to 0). -/
def initPool (sz : Nat) : PoolManager :=
  { size := sz, used := 0, freeList := none, allocationCount := 0
    inited := true, headers := fun _ => zeroBlock }

/-- StaticBLEMemory::resetPool: zero the bookkeeping and memset the arena. -/
def resetPool (p : PoolManager) : PoolManager :=
  { p with used := 0, freeList := none, allocationCount := 0
           headers := fun _ => zeroBlock }

/-- StaticBLEMemory::validatePool - free-list walk, capped at 100 nodes
exactly as the `freeListCount < 100` bound of the source (the cap makes
the walk total even on a cyclic list, returning true). -/
def validateFreeList (p : PoolManager) : Nat → Option Nat → Bool
  | _, none => true
  | 0, some _ => true
  | fuel + 1, some off =>
    let blk := p.headers off
    validateBlock blk && !blk.allocated && validateFreeList p fuel blk.next

/-- StaticBLEMemory::validatePool. -/
def validatePool (p : PoolManager) : Bool :=
  p.inited && decide (p.used ≤ p.size) && validateFreeList p 100 p.freeList

/-- Pool indices POOL_CONNECTION .. POOL_GENERAL of enum PoolType. -/
abbrev PoolIdx := Fin 5

def POOL_CONNECTION : PoolIdx := 0
def POOL_CHARACTERISTIC : PoolIdx := 1
def POOL_CALLBACK : PoolIdx := 2
def POOL_EVENT : PoolIdx := 3
def POOL_GENERAL : PoolIdx := 4

/-- The compile-time arena sizes BLE_*_POOL_SIZE, in PoolType order. -/
def poolSizes : PoolIdx → Nat
  | 0 => 2048   -- BLE_CONNECTION_POOL_SIZE
  | 1 => 1024   -- BLE_CHARACTERISTIC_POOL_SIZE
  | 2 => 512    -- BLE_CALLBACK_POOL_SIZE
  | 3 => 1024   -- BLE_EVENT_POOL_SIZE
  | 4 => 3584   -- BLE_GENERAL_POOL_SIZE

/-- StaticBLEMemory::getOptimalPool. -/
def getOptimalPool (size : Nat) : PoolIdx :=
  if size ≤ 256 then POOL_CALLBACK
  else if size ≤ 512 then POOL_CHARACTERISTIC
  else if size ≤ 1024 then POOL_EVENT
  else if size ≤ 2048 then POOL_CONNECTION
  else POOL_GENERAL

/-- The global static state of the StaticBLEMemory class. -/
structure AllocState where
  pools : PoolIdx → PoolManager
  inited : Bool
  totalAllocations : Nat
  totalDeallocations : Nat
  peakUsage : Nat

/-- A non-null pointer into BLE memory: the owning arena (determined by
address-range containment of the raw address in one of the five disjoint
static arrays) and the byte offset inside it. -/
structure BLEPtr where
  pool : PoolIdx
  off : Nat
deriving Repr, DecidableEq

/-- Replace one pool of the state. -/
def setPool (s : AllocState) (i : PoolIdx) (p : PoolManager) : AllocState :=
  { s with pools := fun j => if j = i then p else s.pools j }

/-- StaticBLEMemory::getTotalSize (returns the macro unconditionally). -/
def getTotalSize : Nat := BLE_STATIC_POOL_SIZE

/-- StaticBLEMemory::getUsedSize. -/
def getUsedSize (s : AllocState) : Nat :=
  if ¬s.inited then 0
  else (s.pools 0).used + (s.pools 1).used + (s.pools 2).used
       + (s.pools 3).used + (s.pools 4).used

/-- StaticBLEMemory::getFreeSize. -/
def getFreeSize (s : AllocState) : Nat := getTotalSize - getUsedSize s

/-- StaticBLEMemory::isHealthy.  `getFreeSize() < getTotalSize() * 0.1`
(a float comparison with 819.2) is modelled by the equivalent integer
test `10 * getFreeSize < getTotalSize`. -/
def isHealthy (s : AllocState) : Bool :=
  if ¬s.inited then false
  else
    !decide (s.totalDeallocations + 10 < s.totalAllocations)
    && validatePool (s.pools 0) && validatePool (s.pools 1)
    && validatePool (s.pools 2) && validatePool (s.pools 3)
    && validatePool (s.pools 4)
    && !decide (10 * getFreeSize s < getTotalSize)

/-- Try one pool: wraps allocateFromPool into the global state. -/
def tryPool (s : AllocState) (asize : Nat) (i : PoolIdx) :
    Option (BLEPtr × AllocState) :=
  match allocateFromPool (s.pools i) asize with
  | none => none
  | some (off, p) => some (⟨i, off⟩, setPool s i p)

/-- The final fallback for-loop of StaticBLEMemory::allocate: try every
pool index in order, skipping the optimal pool and the general pool. -/
def allocLoop (s : AllocState) (asize : Nat) (pt : PoolIdx) :
    List PoolIdx → Option (BLEPtr × AllocState)
  | [] => none
  | i :: rest =>
    if i == pt || i == POOL_GENERAL then allocLoop s asize pt rest
    else
      match tryPool s asize i with
      | some r => some r
      | none => allocLoop s asize pt rest

/-- The three-stage pool selection of StaticBLEMemory::allocate: optimal
pool first, then the general pool, then the remaining pools in index
order. -/
def allocateCore (s : AllocState) (asize : Nat) (pt : PoolIdx) :
    Option (BLEPtr × AllocState) :=
  match tryPool s asize pt with
  | some r => some r
  | none =>
    match (if pt == POOL_GENERAL then none else tryPool s asize POOL_GENERAL) with
    | some r => some r
    | none => allocLoop s asize pt [0, 1, 2, 3, 4]

/-- StaticBLEMemory::allocate. -/
def allocate (s : AllocState) (size : Nat) : Option BLEPtr × AllocState :=
  if ¬s.inited ∨ size = 0 then (none, s)
  else
    let asize := alignSize size
    let pt := getOptimalPool asize
    match allocateCore s asize pt with
    | none => (none, s)
    | some (ptr, s1) =>
      let s2 := { s1 with totalAllocations := s1.totalAllocations + 1 }
      let usage := getUsedSize s2
      (some ptr, if s2.peakUsage < usage then { s2 with peakUsage := usage } else s2)

/-- StaticBLEMemory::findPoolForPointer: scan the five pools for
address-range containment.  The arenas are disjoint arrays, so only the
arena named in the pointer can contain it. -/
def findPoolForPointer (s : AllocState) (ptr : BLEPtr) : Option PoolIdx :=
  if isPointerInPool (s.pools ptr.pool) ptr.off then some ptr.pool else none

/-- StaticBLEMemory::deallocate (for a non-null pointer). -/
def deallocate (s : AllocState) (ptr : BLEPtr) : FreeOutcome × AllocState :=
  if ¬s.inited then (.skipped, s)
  else
    match findPoolForPointer s ptr with
    | none => (.notInPool, s)   -- "BLE deallocation failed: invalid pointer"
    | some i =>
      match deallocateFromPool (s.pools i) ptr.off with
      | (.freed, p1) =>
        (.freed, { setPool s i p1 with totalDeallocations := s.totalDeallocations + 1 })
      | (r, _) => (r, s)

/-- The state right after a successful StaticBLEMemory::initialize():
all five pools set up with their compile-time sizes and zeroed memory,
statistics reset. -/
def initState : AllocState :=
  { pools := fun i => initPool (poolSizes i), inited := true
    totalAllocations := 0, totalDeallocations := 0, peakUsage := 0 }

/-- StaticBLEMemory::shutdown: reset every pool, clear `initialized`. -/
def shutdown (s : AllocState) : AllocState :=
  if ¬s.inited then s
  else { s with pools := fun i => resetPool (s.pools i), inited := false }

/-- One external allocator operation (the interface consumed by the
wireless stack adapter). -/
inductive AllocOp
  | alloc (size : Nat)
  | free (ptr : BLEPtr)

/-- Effect of one operation on the allocator state. -/
def stepOp (s : AllocState) : AllocOp → AllocState
  | .alloc n => (allocate s n).2
  | .free p => (deallocate s p).2

/-- Run a sequence of allocate/deallocate operations. -/
def runOps (s : AllocState) (ops : List AllocOp) : AllocState :=
  ops.foldl stepOp s

end StaticBLEMemory

section ScenarioC5

open StaticBLEMemory

/-- One allocation step of the end-to-end scenario: allocate 64 bytes and
record the returned pointer. -/
def c5AllocStep (acc : AllocState × List BLEPtr) (_ : Nat) :
    AllocState × List BLEPtr :=
  match allocate acc.1 64 with
  | (some p, s) => (s, acc.2 ++ [p])
  | (none, s) => (s, acc.2)

/-- State and pointers after the 50 allocations of the scenario. -/
def c5Mid : AllocState × List BLEPtr :=
  (List.range 50).foldl c5AllocStep (initState, [])

/-- One deallocation step: free a pointer, remembering whether every free
so far was accepted. -/
def c5FreeStep (acc : AllocState × Bool) (p : BLEPtr) : AllocState × Bool :=
  match deallocate acc.1 p with
  | (r, s) => (s, acc.2 && (r == .freed))

/-- Final state of the scenario: the 50 pointers freed in reverse order. -/
def c5Final : AllocState × Bool :=
  c5Mid.2.reverse.foldl c5FreeStep (c5Mid.1, true)

end ScenarioC5

/-! # Part 2: FreeRTOSManager - the primitive registry

Translated from src/src/hardware/FreeRTOSManager.cpp.  The registry
creates 11 semaphores/mutexes, 2 event groups and 15 queues, in that
order (initialize() calls createSemaphores, then createEventGroups, then
createQueues).  A kernel-object creation call (`xSemaphoreCreateMutex`,
`xSemaphoreCreateBinary`, `xEventGroupCreate`, `xQueueCreate`) may return
null on allocation failure; the environment is modelled by an oracle
telling, for each creation call in program order, whether it succeeds.
Successful calls yield distinct handles (fresh naturals).  Handle groups
are modelled as lists in declaration order (index 0 of `semaphores` is
i2cBusMutex, ..., index 0 of `eventGroups` is sensorStatusEvents, index 0
of `queues` is pulseRawDataQueue, ...).  `initialized` is rendered
`inited`. -/

namespace FreeRTOSMgr

/-- Number of semaphore/mutex handles created by createSemaphores. -/
def NUM_SEMAPHORES : Nat := 11

/-- Number of event groups created by createEventGroups. -/
def NUM_EVENT_GROUPS : Nat := 2

/-- Number of queues created by createQueues. -/
def NUM_QUEUES : Nat := 15

/-- The static state of the FreeRTOSManager class (task handles and the
sensor-data pool are not touched by the modelled paths). -/
structure RTOSState where
  inited : Bool
  queuesCreated : Bool
  semaphoresCreated : Bool
  eventGroupsCreated : Bool
  semaphores : List (Option Nat)
  eventGroups : List (Option Nat)
  queues : List (Option Nat)
  nextId : Nat
deriving Repr, DecidableEq

/-- The oracle for kernel-object creation: `o k` tells whether the k-th
creation call (counting all creations in program order) returns a handle. -/
abbrev CreateOracle := Nat → Bool

/-- Perform `n` consecutive creation calls starting at call counter
`start`: each successful call yields the fresh handle `start + i`. -/
def mkHandles (o : CreateOracle) (start n : Nat) : List (Option Nat) :=
  (List.range n).map (fun i => if o (start + i) then some (start + i) else none)

/-- validateSemaphoreCreation / validateEventGroupCreation /
validateQueueCreation: every handle of the group must be non-null. -/
def allSome (l : List (Option Nat)) : Bool := l.all (fun h => h.isSome)

/-- FreeRTOSManager::createSemaphores: early-exits when the group was
already created; otherwise creates all 11 handles, then validates.  On
validation failure the handles stay as assigned and false is returned. -/
def createSemaphores (s : RTOSState) (o : CreateOracle) : RTOSState × Bool :=
  if s.semaphoresCreated then (s, true)
  else
    let hs := mkHandles o s.nextId NUM_SEMAPHORES
    let s1 := { s with semaphores := hs, nextId := s.nextId + NUM_SEMAPHORES }
    if allSome hs then ({ s1 with semaphoresCreated := true }, true)
    else (s1, false)

/-- FreeRTOSManager::createEventGroups. -/
def createEventGroups (s : RTOSState) (o : CreateOracle) : RTOSState × Bool :=
  if s.eventGroupsCreated then (s, true)
  else
    let hs := mkHandles o s.nextId NUM_EVENT_GROUPS
    let s1 := { s with eventGroups := hs, nextId := s.nextId + NUM_EVENT_GROUPS }
    if allSome hs then ({ s1 with eventGroupsCreated := true }, true)
    else (s1, false)

/-- FreeRTOSManager::createQueues. -/
def createQueues (s : RTOSState) (o : CreateOracle) : RTOSState × Bool :=
  if s.queuesCreated then (s, true)
  else
    let hs := mkHandles o s.nextId NUM_QUEUES
    let s1 := { s with queues := hs, nextId := s.nextId + NUM_QUEUES }
    if allSome hs then ({ s1 with queuesCreated := true }, true)
    else (s1, false)

/-- FreeRTOSManager::initialize: creation order is semaphores, event
groups, queues; any group failure aborts with false (no cleanup of the
groups or handles already created). -/
def initMgr (s : RTOSState) (o : CreateOracle) : RTOSState × Bool :=
  if s.inited then (s, true)
  else
    let r1 := createSemaphores s o
    if !r1.2 then (r1.1, false)
    else
      let r2 := createEventGroups r1.1 o
      if !r2.2 then (r2.1, false)
      else
        let r3 := createQueues r2.1 o
        if !r3.2 then (r3.1, false)
        else ({ r3.1 with inited := true }, true)

/-- The static-member initial state (all flags false, all handles null). -/
def freshState : RTOSState :=
  { inited := false, queuesCreated := false, semaphoresCreated := false
    eventGroupsCreated := false, semaphores := List.replicate NUM_SEMAPHORES none
    eventGroups := List.replicate NUM_EVENT_GROUPS none
    queues := List.replicate NUM_QUEUES none, nextId := 0 }

/-- Oracle of the C2 counterexample: the 12th creation call (call index
11, the first event group, sensorStatusEvents) fails; everything else
succeeds. -/
def c2Oracle : CreateOracle := fun k => !(k == 11)

/-- State and result of the first initialize() under `c2Oracle`. -/
def c2Run1 : RTOSState × Bool := initMgr freshState c2Oracle

/-- State and result of a second initialize() call after the failed one. -/
def c2Run2 : RTOSState × Bool := initMgr c2Run1.1 c2Oracle

end FreeRTOSMgr

/-! # Part 3: I2CManager - bus health and recovery

Translated from src/src/hardware/I2CManager.cpp (updateBusHealth,
recoverBus, shouldAttemptRecovery, isBusHealthy, getSuccessRate).  The
transaction counters `transactionCount`/`errorCount` are mutated by the
transaction-execution paths between health checks; for the health loop
they are inputs.  `millis()` is the `now` of each health check.  Whether
the bus re-initialization inside recoverBus succeeds is an input
(`recoverOk`).  Float comparisons on the success rate are modelled by
exact integer comparisons (rate = (t - e) / t): rate < 0.5 becomes
2*(t-e) < t, rate > 0.95 becomes 19*t < 20*(t-e), each together with the
t = 0 special case of getSuccessRate. -/

namespace I2CMgr

/-- The recovery-related static state of I2CManager. -/
structure I2CRecState where
  lastRecoveryTime : Nat
  recoveryAttempts : Nat
  busRecoveryInProgress : Bool
deriving Repr, DecidableEq

/-- Environment of one updateBusHealth call. -/
structure HealthInput where
  now : Nat
  transactionCount : Nat
  errorCount : Nat
  recoverOk : Bool
deriving Repr, DecidableEq

/-- getSuccessRate() < 0.5f (getSuccessRate returns 1.0 when
transactionCount is 0). -/
def successRateLtHalf (t e : Nat) : Bool :=
  t ≠ 0 && 2 * (t - e) < t

/-- I2CManager::isBusHealthy: healthy when no transactions yet, or the
success rate exceeds the 95% threshold. -/
def isBusHealthy (t e : Nat) : Bool :=
  t == 0 || 19 * t < 20 * (t - e)

/-- I2CManager::shouldAttemptRecovery: at least 10 s since the last
recovery, fewer than 3 recorded attempts, success rate below 50%. -/
def shouldAttemptRecovery (st : I2CRecState) (now t e : Nat) : Bool :=
  !(now - st.lastRecoveryTime < 10000)
  && !(3 ≤ st.recoveryAttempts)
  && successRateLtHalf t e

/-- I2CManager::recoverBus: records the attempt (timestamp + counter),
resets the bus, and resets the attempt counter to 0 when the
re-initialization succeeds. -/
def recoverBus (st : I2CRecState) (now : Nat) (ok : Bool) : I2CRecState × Bool :=
  if st.busRecoveryInProgress then (st, false)
  else
    let st1 := { st with busRecoveryInProgress := true
                         lastRecoveryTime := now
                         recoveryAttempts := st.recoveryAttempts + 1 }
    if ok then ({ st1 with recoveryAttempts := 0, busRecoveryInProgress := false }, true)
    else ({ st1 with busRecoveryInProgress := false }, false)

/-- I2CManager::updateBusHealth, instrumented with whether a recovery
attempt actually started (recoverBus ran past its re-entrancy guard). -/
def updateBusHealth (st : I2CRecState) (inp : HealthInput) : I2CRecState × Bool :=
  if !isBusHealthy inp.transactionCount inp.errorCount
     && shouldAttemptRecovery st inp.now inp.transactionCount inp.errorCount then
    ((recoverBus st inp.now inp.recoverOk).1, !st.busRecoveryInProgress)
  else (st, false)

/-- Run the health loop over a list of check inputs, collecting the start
times of the recovery attempts in order. -/
def runHealth (st : I2CRecState) : List HealthInput → I2CRecState × List Nat
  | [] => (st, [])
  | inp :: rest =>
    let r1 := updateBusHealth st inp
    let r2 := runHealth r1.1 rest
    (r2.1, (if r1.2 then [inp.now] else []) ++ r2.2)

/-- The static-member initial state of the recovery bookkeeping. -/
def i2cInit : I2CRecState := ⟨0, 0, false⟩

/-- Health-check trace of the C3 counterexample: four checks, 10 s apart,
each with 1 transaction and 1 error (success rate 0% < 50%), each
recovery succeeding. -/
def c3Inputs : List HealthInput :=
  [⟨10000, 1, 1, true⟩, ⟨20000, 1, 1, true⟩, ⟨30000, 1, 1, true⟩, ⟨40000, 1, 1, true⟩]

end I2CMgr

/-! # Part 4: NetworkWatchdogManager - the network reliability watchdog

Translated from src/src/network/NetworkWatchdogManager.cpp and .h.
Transports are indexed by `Fin 3` in ConnectionType order
(0 = WIFI, 1 = MQTT, 2 = BLE; getConnectionIndex is the cast).  The
`type`, `lastAttempt` and `lastError` fields of ConnectionStatus are never
read by the modelled paths and are omitted; so are the alert strings, the
callbacks and the diagnostic ring buffer `recentRecoveries`.  Reliability
is modelled in integer percent (100/80/60/30 against thresholds 95/85/70,
matching the float buckets 1.0/0.8/0.6/0.3 and thresholds
0.95/0.85/0.70 of the source). -/

namespace Watchdog

/-- enum class NetworkHealth, in declaration (= integer) order. -/
inductive NetworkHealth
  | EXCELLENT
  | GOOD
  | WARNING
  | CRITICAL
  | OFFLINE
deriving Repr, DecidableEq

/-- The underlying integer of a NetworkHealth enumerator (EXCELLENT best
at 0, OFFLINE worst at 4); the `>` of the source compares these. -/
def healthRank : NetworkHealth → Nat
  | .EXCELLENT => 0
  | .GOOD => 1
  | .WARNING => 2
  | .CRITICAL => 3
  | .OFFLINE => 4

/-- struct ConnectionStatus (the fields read or written by the modelled
code paths). -/
structure ConnectionStatus where
  connected : Bool
  lastConnected : Nat
  failureCount : Nat
  recoveryAttempts : Nat
  responseTime : Nat
  health : NetworkHealth
deriving Repr, DecidableEq

/-- struct ResponseTimeData. -/
structure ResponseTimeData where
  totalTime : Nat
  count : Nat
  maxTime : Nat
  minTime : Nat
deriving Repr, DecidableEq

/-- UINT32_MAX, the initial minTime. -/
def UINT32_MAX : Nat := 4294967295

/-- NetworkWatchdogManager::recordResponseTime (for one transport). -/
def recordResponseTime (d : ResponseTimeData) (rt : Nat) : ResponseTimeData :=
  let d1 := { d with totalTime := d.totalTime + rt, count := d.count + 1 }
  let d2 := if d1.maxTime < rt then { d1 with maxTime := rt } else d1
  if rt < d2.minTime then { d2 with minTime := rt } else d2

/-- NetworkWatchdogManager::getAverageResponseTime (for one transport). -/
def getAverageResponseTime (d : ResponseTimeData) : Nat :=
  if 0 < d.count then d.totalTime / d.count else 0

/-- NetworkWatchdogManager::calculateReliability, in integer percent:
failure-count buckets 0 → 100, 1-2 → 80, 3-4 → 60, 5+ → 30. -/
def calculateReliability (st : ConnectionStatus) : Nat :=
  if st.failureCount = 0 then 100
  else if st.failureCount < 3 then 80
  else if st.failureCount < 5 then 60
  else 30

/-- Reliability thresholds RELIABILITY_*_THRESHOLD, in percent. -/
def RELIABILITY_EXCELLENT_THRESHOLD : Nat := 95
def RELIABILITY_GOOD_THRESHOLD : Nat := 85
def RELIABILITY_WARNING_THRESHOLD : Nat := 70

/-- NetworkWatchdogManager::assessConnectionHealth (for one transport). -/
def assessConnectionHealth (st : ConnectionStatus) (d : ResponseTimeData) :
    NetworkHealth :=
  if !st.connected then .OFFLINE
  else
    let rel := calculateReliability st
    let avg := getAverageResponseTime d
    if RELIABILITY_EXCELLENT_THRESHOLD ≤ rel && avg < 1000 then .EXCELLENT
    else if RELIABILITY_GOOD_THRESHOLD ≤ rel && avg < 2000 then .GOOD
    else if RELIABILITY_WARNING_THRESHOLD ≤ rel && avg < 5000 then .WARNING
    else .CRITICAL

/-- NetworkWatchdogManager::updateConnectionStatus for one transport:
failure counting on transitions, response-time recording, then the fresh
health assessment. -/
def updateConnectionStatus (st : ConnectionStatus) (d : ResponseTimeData)
    (connected : Bool) (responseTime now : Nat) :
    ConnectionStatus × ResponseTimeData :=
  let st1 :=
    if connected != st.connected then
      if connected then
        { st with lastConnected := now, failureCount := 0, connected := true }
      else
        { st with failureCount := st.failureCount + 1, connected := false }
    else st
  let st2 := if connected && 0 < responseTime then { st1 with responseTime := responseTime } else st1
  let d2 := if connected && 0 < responseTime then recordResponseTime d responseTime else d
  ({ st2 with health := assessConnectionHealth st2 d2 }, d2)

/-- The instance state of NetworkWatchdogManager (fields read or written
by the watchdog task loop). -/
structure WatchdogState where
  connections : Fin 3 → ConnectionStatus
  responseTimes : Fin 3 → ResponseTimeData
  overallHealth : NetworkHealth
  recoveryEnabled : Bool
  recoveryThreshold : Nat
  recoveryInProgress : Fin 3 → Bool
  recoveryStartTime : Fin 3 → Nat
  totalRecoveries : Nat
  successfulRecoveries : Nat

/-- Lift updateConnectionStatus to the manager state at transport `i`. -/
def wUpdateConnectionStatus (s : WatchdogState) (i : Fin 3)
    (connected : Bool) (responseTime now : Nat) : WatchdogState :=
  let r := updateConnectionStatus (s.connections i) (s.responseTimes i)
             connected responseTime now
  { s with connections := fun j => if j = i then r.1 else s.connections j
           responseTimes := fun j => if j = i then r.2 else s.responseTimes j }

/-- One step of the worst-health fold of calculateOverallHealth:
`if (connections[i].health > worstHealth) worstHealth = ...`. -/
def worstStep (w h : NetworkHealth) : NetworkHealth :=
  if healthRank w < healthRank h then h else w

/-- NetworkWatchdogManager::calculateOverallHealth: the worst of the three
transport healths (fold starting from EXCELLENT). -/
def calculateOverallHealth (s : WatchdogState) : NetworkHealth :=
  worstStep (worstStep (worstStep .EXCELLENT (s.connections 0).health)
    (s.connections 1).health) (s.connections 2).health

/-- CONNECTION_TIMEOUT (30 s) and RECOVERY_TIMEOUT (60 s). -/
def CONNECTION_TIMEOUT : Nat := 30000
def RECOVERY_TIMEOUT : Nat := 60000

/-- DEFAULT_RECOVERY_THRESHOLD (3 failures). -/
def DEFAULT_RECOVERY_THRESHOLD : Nat := 3

/-- Body of the checkConnectionTimeouts loop for transport `i`:
declare a stale connection lost, and force-clear a stuck recovery. -/
def checkTimeoutStep (now : Nat) (s : WatchdogState) (i : Fin 3) : WatchdogState :=
  let s1 :=
    if (s.connections i).connected
       && CONNECTION_TIMEOUT < now - (s.connections i).lastConnected then
      wUpdateConnectionStatus s i false 0 now
    else s
  if s1.recoveryInProgress i && RECOVERY_TIMEOUT < now - s1.recoveryStartTime i then
    { s1 with recoveryInProgress := fun j => if j = i then false else s1.recoveryInProgress j }
  else s1

/-- NetworkWatchdogManager::checkConnectionTimeouts. -/
def checkConnectionTimeouts (s : WatchdogState) (now : Nat) : WatchdogState :=
  checkTimeoutStep now (checkTimeoutStep now (checkTimeoutStep now s 0) 1) 2

/-- NetworkWatchdogManager::shouldTriggerRecovery. -/
def shouldTriggerRecovery (s : WatchdogState) (i : Fin 3) : Bool :=
  !(s.connections i).connected
  && s.recoveryThreshold ≤ (s.connections i).failureCount
  && !s.recoveryInProgress i

/-- NetworkWatchdogManager::executeRecovery: the transport-specific hooks
are logging stubs and `successful` is hard-coded true in the source;
recovery bookkeeping is updated and the in-progress flag cleared. -/
def executeRecovery (s : WatchdogState) (i : Fin 3) : WatchdogState :=
  let s1 := { s with totalRecoveries := s.totalRecoveries + 1
                     successfulRecoveries := s.successfulRecoveries + 1 }
  { s1 with recoveryInProgress := fun j => if j = i then false else s1.recoveryInProgress j }

/-- NetworkWatchdogManager::triggerRecovery. -/
def triggerRecovery (s : WatchdogState) (i : Fin 3) (now : Nat) : WatchdogState :=
  if !s.recoveryEnabled || s.recoveryInProgress i then s
  else
    let s1 :=
      { s with recoveryInProgress := fun j => if j = i then true else s.recoveryInProgress j
               recoveryStartTime := fun j => if j = i then now else s.recoveryStartTime j
               connections := fun j => if j = i then
                   { s.connections j with recoveryAttempts := (s.connections j).recoveryAttempts + 1 }
                 else s.connections j }
    executeRecovery s1 i

/-- Body of the evaluateRecoveryNeeds loop for transport `i`. -/
def evaluateStep (now : Nat) (s : WatchdogState) (i : Fin 3) : WatchdogState :=
  if shouldTriggerRecovery s i then triggerRecovery s i now else s

/-- NetworkWatchdogManager::evaluateRecoveryNeeds. -/
def evaluateRecoveryNeeds (s : WatchdogState) (now : Nat) : WatchdogState :=
  evaluateStep now (evaluateStep now (evaluateStep now s 0) 1) 2

/-- NetworkWatchdogManager::performHealthChecks.  The per-transport checks
of the source use simulated data (checkWiFiHealth: connected with a 50 ms
response; checkMQTTHealth: connected, 100 ms; checkBLEHealth:
disconnected, 20 ms). -/
def performHealthChecks (s : WatchdogState) (now : Nat) : WatchdogState :=
  let s1 := wUpdateConnectionStatus s 0 true 50 now
  let s2 := wUpdateConnectionStatus s1 1 true 100 now
  wUpdateConnectionStatus s2 2 false 20 now

/-- One iteration of networkWatchdogTask at time `now`:
performHealthChecks, updateOverallHealth, checkConnectionTimeouts,
evaluateRecoveryNeeds (processRecoveryQueue and processNetworkAlerts are
no-ops in the source). -/
def watchdogCycle (s : WatchdogState) (now : Nat) : WatchdogState :=
  let s1 := performHealthChecks s now
  let s2 := { s1 with overallHealth := calculateOverallHealth s1 }
  let s3 := checkConnectionTimeouts s2 now
  evaluateRecoveryNeeds s3 now

/-- Run the watchdog task loop over the poll times `ts`. -/
def runWatchdog (s : WatchdogState) (ts : List Nat) : WatchdogState :=
  ts.foldl watchdogCycle s

/-- NetworkWatchdogManager::getOverallNetworkHealth. -/
def getOverallNetworkHealth (s : WatchdogState) : NetworkHealth := s.overallHealth

/-- NetworkWatchdogManager::getConnectionStatus (valid transport index). -/
def getConnectionStatus (s : WatchdogState) (i : Fin 3) : ConnectionStatus :=
  s.connections i

/-- The state set up by NetworkWatchdogManager::initialize(). -/
def watchdogInit : WatchdogState :=
  { connections := fun _ =>
      { connected := false, lastConnected := 0, failureCount := 0
        recoveryAttempts := 0, responseTime := 0, health := .GOOD }
    responseTimes := fun _ => { totalTime := 0, count := 0, maxTime := 0, minTime := UINT32_MAX }
    overallHealth := .GOOD, recoveryEnabled := true
    recoveryThreshold := DEFAULT_RECOVERY_THRESHOLD
    recoveryInProgress := fun _ => false, recoveryStartTime := fun _ => 0
    totalRecoveries := 0, successfulRecoveries := 0 }

end Watchdog

section ScenarioC4

open Watchdog

/-- Start of the C4 scenario: a transport that is connected with failure
count 0 (and health Good, as after a clean connect). -/
def c4Start : ConnectionStatus :=
  { connected := true, lastConnected := 0, failureCount := 0
    recoveryAttempts := 0, responseTime := 0, health := .GOOD }

/-- Pristine response-time record. -/
def c4Rtd : ResponseTimeData :=
  { totalTime := 0, count := 0, maxTime := 0, minTime := UINT32_MAX }

/-- Five consecutive failed (disconnected) health checks, observed at
times 1..5. -/
def c4After5 : ConnectionStatus × ResponseTimeData :=
  [1, 2, 3, 4, 5].foldl
    (fun acc k => updateConnectionStatus acc.1 acc.2 false 50 k) (c4Start, c4Rtd)

/-- One subsequent successful (connected) health check at time 6. -/
def c4After6 : ConnectionStatus × ResponseTimeData :=
  updateConnectionStatus c4After5.1 c4After5.2 true 50 6

end ScenarioC4

/-! # Concrete scenario states for the C1 double-free counterexample -/

section ScenarioC1

open StaticBLEMemory

/-- State after one allocate(64) from a fresh allocator: the callback
arena holds one block at header offset 0, payload offset 16. -/
def c1s1 : AllocState := (allocate initState 64).2

/-- The pointer returned by that allocation. -/
def c1p : BLEPtr := ⟨POOL_CALLBACK, 16⟩

/-- State after the first (legitimate) deallocate of `c1p`. -/
def c1s2 : AllocState := (deallocate c1s1 c1p).2

end ScenarioC1

/-- Health-check trace for the C3 witness: four checks, 10 s apart, with
the success rate below 50% throughout and every bus re-initialization
failing. -/
def c3FailInputs : List I2CMgr.HealthInput :=
  [⟨10000, 1, 1, false⟩, ⟨20000, 1, 1, false⟩, ⟨30000, 1, 1, false⟩, ⟨40000, 1, 1, false⟩]

section DefsC6

open StaticBLEMemory

/-- Modelled from the spec: the fixed size-banding rule choosing the
optimal arena for an (aligned) request size - at most 256 bytes goes to
the callback arena, at most 512 to the characteristic arena, at most
1024 to the event arena, at most 2048 to the connection arena, anything
larger to the general arena.  Stated separately from `getOptimalPool`
(which is translated from the source) so the two can be compared. -/
def specOptimalArena (size : Nat) : PoolIdx :=
  if size ≤ 256 then POOL_CALLBACK
  else if size ≤ 512 then POOL_CHARACTERISTIC
  else if size ≤ 1024 then POOL_EVENT
  else if size ≤ 2048 then POOL_CONNECTION
  else POOL_GENERAL

/-- The overall pool order tried by StaticBLEMemory::allocate for optimal
pool `pt`: `pt` first, then the general pool (unless `pt` is the general
pool), then the remaining pools in index order. -/
def tryOrder (pt : PoolIdx) : List PoolIdx :=
  pt :: ((if pt == POOL_GENERAL then [] else [POOL_GENERAL])
    ++ ([0, 1, 2, 3, 4].filter (fun i => !(i == pt || i == POOL_GENERAL))))

/-- First-fit over an explicit pool order: the result of trying
allocateFromPool on each listed pool in turn. -/
def firstAlloc (s : AllocState) (asize : Nat) :
    List PoolIdx → Option (BLEPtr × AllocState)
  | [] => none
  | i :: rest =>
    match tryPool s asize i with
    | some r => some r
    | none => firstAlloc s asize rest

/-- The per-arena invariant of C7: used within capacity, capacity fixed at
the compile-time sizes. -/
def PoolInv (s : AllocState) : Prop :=
  ∀ i, (s.pools i).used ≤ (s.pools i).size ∧ (s.pools i).size = poolSizes i

end DefsC6

/-! # Claim theorems -/

/-- C8: for every transport state, the watchdog's rolling reliability
score takes only the four values 100%, 80%, 60%, 30%, is determined
solely by the transport's current failure count, and is monotonically
non-increasing as the failure count grows. -/
theorem C8_reliability_buckets :
    (∀ st : Watchdog.ConnectionStatus,
        Watchdog.calculateReliability st = 100 ∨ Watchdog.calculateReliability st = 80
      ∨ Watchdog.calculateReliability st = 60 ∨ Watchdog.calculateReliability st = 30)
  ∧ (∀ st st' : Watchdog.ConnectionStatus, st.failureCount = st'.failureCount →
        Watchdog.calculateReliability st = Watchdog.calculateReliability st')
  ∧ (∀ st st' : Watchdog.ConnectionStatus, st.failureCount ≤ st'.failureCount →
        Watchdog.calculateReliability st' ≤ Watchdog.calculateReliability st) := by
  refine ⟨fun st => ?_, fun st st' h => ?_, fun st st' h => ?_⟩
  · unfold Watchdog.calculateReliability
    split_ifs <;> simp
  · unfold Watchdog.calculateReliability
    rw [h]
  · unfold Watchdog.calculateReliability
    split_ifs <;> omega

/-- Witness for C8 at concrete transport states (failure counts 1, 1, 7). -/
theorem C8_reliability_buckets_witness :
    (Watchdog.calculateReliability ⟨true, 0, 1, 0, 50, .GOOD⟩ = 100
      ∨ Watchdog.calculateReliability ⟨true, 0, 1, 0, 50, .GOOD⟩ = 80
      ∨ Watchdog.calculateReliability ⟨true, 0, 1, 0, 50, .GOOD⟩ = 60
      ∨ Watchdog.calculateReliability ⟨true, 0, 1, 0, 50, .GOOD⟩ = 30)
  ∧ Watchdog.calculateReliability ⟨true, 0, 1, 0, 50, .GOOD⟩
      = Watchdog.calculateReliability ⟨false, 3, 1, 2, 90, .WARNING⟩
  ∧ Watchdog.calculateReliability ⟨false, 0, 7, 0, 50, .CRITICAL⟩
      ≤ Watchdog.calculateReliability ⟨true, 0, 1, 0, 50, .GOOD⟩ :=
  ⟨C8_reliability_buckets.1 ⟨true, 0, 1, 0, 50, .GOOD⟩,
   C8_reliability_buckets.2.1 ⟨true, 0, 1, 0, 50, .GOOD⟩ ⟨false, 3, 1, 2, 90, .WARNING⟩ (by decide),
   C8_reliability_buckets.2.2 ⟨true, 0, 1, 0, 50, .GOOD⟩ ⟨false, 0, 7, 0, 50, .CRITICAL⟩ (by decide)⟩

/-- C4 counterexample: starting from a connected transport with failure
count 0, five consecutive failed (disconnected) health checks leave
failure_count at 1, not 5 - the counter increments only on the
connected-to-disconnected transition (updateConnectionStatus), so the
claimed `failure_count == 5` is false. -/
theorem C4_failure_count_counterexample :
    ¬c4After5.1.failureCount = 5 ∧ c4After5.1.failureCount = 1 := by
  decide

/-- C4 (amended): starting from a connected transport with failure count
0, after 5 consecutive failed (disconnected) health checks the reported
status has failure_count = 1 (the count increments only on the
connected-to-disconnected transition) and health Offline, which is no
better than Warning; after one subsequent successful (connected) check,
failure_count is 0 again. -/
theorem C4_watchdog_failure_scenario :
    c4After5.1.failureCount = 1
  ∧ c4After5.1.health = .OFFLINE
  ∧ Watchdog.healthRank .WARNING ≤ Watchdog.healthRank c4After5.1.health
  ∧ c4After6.1.failureCount = 0 := by
  decide

/-- C5 counterexample: the end-to-end scenario (50 allocate(64) calls
from a fresh allocator, then 50 frees in reverse order) does not bring
getUsedSize() back to its pre-test value: the pre-test value is 0 but
the final value is 4000, because deallocateFromPool never decrements an
arena's `used` counter. -/
theorem C5_used_size_counterexample :
    StaticBLEMemory.getUsedSize StaticBLEMemory.initState = 0
  ∧ c5Mid.2.length = 50
  ∧ c5Final.2 = true
  ∧ StaticBLEMemory.getUsedSize c5Final.1 = 4000 := by
  decide

/-- C5 (amended): starting from a freshly initialized allocator, 50
allocate(64) calls all succeed - the first 6 served by the callback
arena (exhausting its 512-byte capacity at 480 bytes used), the
remaining 44 by the general arena - and deallocating all 50 pointers in
reverse order is accepted for every pointer and leaves isHealthy() true;
but getUsedSize() ends at 4000 (480 + 3520), not at its pre-test value,
since freed bytes stay counted in `used` and become reusable only
through the arenas' free lists. -/
theorem C5_end_to_end_scenario :
    c5Mid.2.length = 50
  ∧ (c5Mid.2.take 6).all (fun p => p.pool == StaticBLEMemory.POOL_CALLBACK) = true
  ∧ (c5Mid.2.drop 6).all (fun p => p.pool == StaticBLEMemory.POOL_GENERAL) = true
  ∧ c5Final.2 = true
  ∧ StaticBLEMemory.isHealthy c5Final.1 = true
  ∧ (c5Final.1.pools StaticBLEMemory.POOL_CALLBACK).used = 480
  ∧ (c5Final.1.pools StaticBLEMemory.POOL_GENERAL).used = 3520
  ∧ StaticBLEMemory.getUsedSize c5Final.1 = 4000 := by
  decide

/-- C1 counterexample: allocate one 64-byte block from a fresh allocator,
free it, then free the same pointer again.  The second deallocate of the
already-freed pointer is accepted (outcome `freed`, the deallocation
counter advances to 2) and mutates the callback arena's free list: the
block's free-list link changes from null to a self-link.  The claim that
such a call is rejected with a corruption alert and no mutation is false. -/
theorem C1_double_free_counterexample :
    (StaticBLEMemory.deallocate c1s1 c1p).1 = .freed
  ∧ (StaticBLEMemory.deallocate c1s2 c1p).1 = .freed
  ∧ ((c1s2.pools StaticBLEMemory.POOL_CALLBACK).headers 0).next = none
  ∧ (((StaticBLEMemory.deallocate c1s2 c1p).2.pools StaticBLEMemory.POOL_CALLBACK).headers 0).next
      = some 0
  ∧ c1s2.totalDeallocations = 1
  ∧ (StaticBLEMemory.deallocate c1s2 c1p).2.totalDeallocations = 2 := by
  decide

/-- C2 counterexample: under an oracle where the 12th kernel-object
creation (the first event group) fails and all others succeed,
initialize() reports failure, yet all 11 semaphores created earlier in
that same call remain live (handle list all non-null, group flag set) -
including i2cBusMutex = handle 0 - and a second initialize() call
succeeds while reusing exactly those semaphore handles from the failed
attempt. -/
theorem C2_partial_failure_counterexample :
    FreeRTOSMgr.c2Run1.2 = false
  ∧ FreeRTOSMgr.allSome FreeRTOSMgr.c2Run1.1.semaphores = true
  ∧ FreeRTOSMgr.c2Run1.1.semaphoresCreated = true
  ∧ FreeRTOSMgr.c2Run1.1.semaphores.head? = some (some 0)
  ∧ FreeRTOSMgr.c2Run2.2 = true
  ∧ FreeRTOSMgr.c2Run2.1.semaphores = FreeRTOSMgr.c2Run1.1.semaphores := by
  decide

/-- C3 counterexample: a health-check trace in which the success rate is
below 50% at every check (1 transaction, 1 error) and every bus
re-initialization succeeds; recovery is attempted 4 times (at 10 s,
20 s, 30 s, 40 s), contradicting the claimed cap of 3 attempts in total:
a successful recoverBus resets the attempt counter to 0. -/
theorem C3_recovery_cap_counterexample :
    (I2CMgr.runHealth I2CMgr.i2cInit I2CMgr.c3Inputs).2 = [10000, 20000, 30000, 40000]
  ∧ (I2CMgr.runHealth I2CMgr.i2cInit I2CMgr.c3Inputs).2.length = 4
  ∧ I2CMgr.c3Inputs.all
      (fun i => I2CMgr.successRateLtHalf i.transactionCount i.errorCount) = true := by
  decide

/-! # C1 amended: guard validation on deallocate -/

/-- C1 (amended): deallocating a pointer lying in no arena is rejected
without mutating any state (invalid-pointer error, no corruption alert);
deallocating a pointer whose preceding block header fails guard
validation (wrong magic, zero or oversized size) is rejected with a
corruption alert and the state unchanged; but any pointer whose header
still carries an intact guard tag is accepted and pushed onto the owning
arena's free list - the `allocated` flag is not consulted, so an
already-freed pointer with an intact header is freed again rather than
rejected (double-free is not detected). -/
theorem C1_deallocate_guard :
    (∀ (s : StaticBLEMemory.AllocState) (ptr : StaticBLEMemory.BLEPtr),
        s.inited = true →
        StaticBLEMemory.findPoolForPointer s ptr = none →
        StaticBLEMemory.deallocate s ptr = (.notInPool, s))
  ∧ (∀ (s : StaticBLEMemory.AllocState) (ptr : StaticBLEMemory.BLEPtr),
        s.inited = true →
        StaticBLEMemory.isPointerInPool (s.pools ptr.pool) ptr.off = true →
        StaticBLEMemory.validateBlock
          ((s.pools ptr.pool).headers (ptr.off - StaticBLEMemory.HEADER_SIZE)) = false →
        StaticBLEMemory.deallocate s ptr = (.corrupt, s))
  ∧ (∀ (s : StaticBLEMemory.AllocState) (ptr : StaticBLEMemory.BLEPtr),
        s.inited = true →
        StaticBLEMemory.isPointerInPool (s.pools ptr.pool) ptr.off = true →
        StaticBLEMemory.validateBlock
          ((s.pools ptr.pool).headers (ptr.off - StaticBLEMemory.HEADER_SIZE)) = true →
        (StaticBLEMemory.deallocate s ptr).1 = .freed
        ∧ ((StaticBLEMemory.deallocate s ptr).2.pools ptr.pool).freeList
            = some (ptr.off - StaticBLEMemory.HEADER_SIZE)) := by
  refine ⟨fun s ptr hInit hFind => ?_, fun s ptr hInit hIn hVal => ?_,
    fun s ptr hInit hIn hVal => ?_⟩
  · simp [StaticBLEMemory.deallocate, hInit, hFind]
  · simp [StaticBLEMemory.deallocate, StaticBLEMemory.findPoolForPointer,
      StaticBLEMemory.deallocateFromPool, hInit, hIn, hVal]
  · simp [StaticBLEMemory.deallocate, StaticBLEMemory.findPoolForPointer,
      StaticBLEMemory.deallocateFromPool, StaticBLEMemory.addToFreeList,
      StaticBLEMemory.writeHeader, StaticBLEMemory.setPool, hInit, hIn, hVal]

/-- Witness for C1 at concrete inputs: a pointer past the connection
arena's 2048 bytes (in no arena), a pointer into untouched (zeroed)
callback-arena memory (guard validation fails), and the pointer of a
live 64-byte block (guard validation passes, block pushed on the free
list). -/
theorem C1_deallocate_guard_witness :
    StaticBLEMemory.deallocate StaticBLEMemory.initState ⟨0, 5000⟩
      = (.notInPool, StaticBLEMemory.initState)
  ∧ StaticBLEMemory.deallocate StaticBLEMemory.initState ⟨2, 32⟩
      = (.corrupt, StaticBLEMemory.initState)
  ∧ ((StaticBLEMemory.deallocate c1s1 ⟨2, 16⟩).1 = .freed
     ∧ ((StaticBLEMemory.deallocate c1s1 ⟨2, 16⟩).2.pools 2).freeList = some 0) :=
  ⟨C1_deallocate_guard.1 StaticBLEMemory.initState ⟨0, 5000⟩ (by decide) (by decide),
   C1_deallocate_guard.2.1 StaticBLEMemory.initState ⟨2, 32⟩ (by decide) (by decide) (by decide),
   C1_deallocate_guard.2.2 c1s1 ⟨2, 16⟩ (by decide) (by decide) (by decide)⟩

/-! # C2 amended: no cleanup on partial initialization failure -/

namespace FreeRTOSMgr

/-- createSemaphores is a no-op returning true once the group flag is set. -/
theorem createSemaphores_already (s : RTOSState) (o : CreateOracle)
    (h : s.semaphoresCreated = true) : createSemaphores s o = (s, true) := by
  unfold createSemaphores
  rw [if_pos h]

/-- createEventGroups never touches the semaphore group. -/
theorem createEventGroups_sem (s : RTOSState) (o : CreateOracle) :
    ((createEventGroups s o).1).semaphores = s.semaphores
    ∧ ((createEventGroups s o).1).semaphoresCreated = s.semaphoresCreated := by
  unfold createEventGroups
  refine ⟨?_, ?_⟩ <;> (dsimp only; split_ifs <;> rfl)

/-- createQueues never touches the semaphore group. -/
theorem createQueues_sem (s : RTOSState) (o : CreateOracle) :
    ((createQueues s o).1).semaphores = s.semaphores
    ∧ ((createQueues s o).1).semaphoresCreated = s.semaphoresCreated := by
  unfold createQueues
  refine ⟨?_, ?_⟩ <;> (dsimp only; split_ifs <;> rfl)

/-- A group creation succeeds entirely when the oracle grants each of its
creation calls. -/
theorem allSome_mkHandles (o : CreateOracle) (start n : Nat)
    (h : ∀ i, i < n → o (start + i) = true) :
    allSome (mkHandles o start n) = true := by
  unfold allSome mkHandles
  rw [List.all_eq_true]
  intro x hx
  rw [List.mem_map] at hx
  obtain ⟨i, hi, rfl⟩ := hx
  rw [List.mem_range] at hi
  simp [h i hi]

end FreeRTOSMgr

/-- C2 (amended): initialize() performs no cleanup on a creation failure.
If the semaphore group is already marked created, a later initialize()
call leaves the semaphore handles exactly as they are (reusing the
primitives of the earlier, possibly failed, attempt).  And in a fresh
registry whose oracle grants all 11 semaphore creations, a failing
initialize() still returns with the semaphore group fully created and
marked, its 11 primitives left live for reuse. -/
theorem C2_no_cleanup_on_failure :
    (∀ (s : FreeRTOSMgr.RTOSState) (o : FreeRTOSMgr.CreateOracle),
        s.inited = false → s.semaphoresCreated = true →
        ((FreeRTOSMgr.initMgr s o).1).semaphores = s.semaphores)
  ∧ (∀ (s : FreeRTOSMgr.RTOSState) (o : FreeRTOSMgr.CreateOracle),
        s.inited = false → s.semaphoresCreated = false →
        (∀ i, i < FreeRTOSMgr.NUM_SEMAPHORES → o (s.nextId + i) = true) →
        (FreeRTOSMgr.initMgr s o).2 = false →
        ((FreeRTOSMgr.initMgr s o).1).semaphoresCreated = true
        ∧ FreeRTOSMgr.allSome ((FreeRTOSMgr.initMgr s o).1).semaphores = true) := by
  constructor
  · intro s o hInit hSem
    unfold FreeRTOSMgr.initMgr
    rw [if_neg (by simp [hInit]), FreeRTOSMgr.createSemaphores_already s o hSem]
    have hs2 := (FreeRTOSMgr.createEventGroups_sem s o).1
    have hs3 := (FreeRTOSMgr.createQueues_sem (FreeRTOSMgr.createEventGroups s o).1 o).1
    by_cases h2 : (FreeRTOSMgr.createEventGroups s o).2 = true
    · by_cases h3 : (FreeRTOSMgr.createQueues (FreeRTOSMgr.createEventGroups s o).1 o).2 = true
      · simp [h2, h3, hs3, hs2]
      · simp [h2, Bool.eq_false_iff.mpr h3, hs3, hs2]
    · simp [Bool.eq_false_iff.mpr h2, hs2]
  · intro s o hInit hSem hOracle hFail
    have hAll : FreeRTOSMgr.allSome
        (FreeRTOSMgr.mkHandles o s.nextId FreeRTOSMgr.NUM_SEMAPHORES) = true :=
      FreeRTOSMgr.allSome_mkHandles o s.nextId FreeRTOSMgr.NUM_SEMAPHORES hOracle
    have hCS : FreeRTOSMgr.createSemaphores s o =
        ({ s with semaphores := FreeRTOSMgr.mkHandles o s.nextId FreeRTOSMgr.NUM_SEMAPHORES
                  nextId := s.nextId + FreeRTOSMgr.NUM_SEMAPHORES
                  semaphoresCreated := true }, true) := by
      unfold FreeRTOSMgr.createSemaphores
      rw [if_neg (by simp [hSem]), if_pos hAll]
    set s1 : FreeRTOSMgr.RTOSState :=
      { s with semaphores := FreeRTOSMgr.mkHandles o s.nextId FreeRTOSMgr.NUM_SEMAPHORES
               nextId := s.nextId + FreeRTOSMgr.NUM_SEMAPHORES
               semaphoresCreated := true } with hs1
    have hsem2 := FreeRTOSMgr.createEventGroups_sem s1 o
    have hsem3 := FreeRTOSMgr.createQueues_sem (FreeRTOSMgr.createEventGroups s1 o).1 o
    unfold FreeRTOSMgr.initMgr at hFail ⊢
    rw [if_neg (by simp [hInit])] at hFail ⊢
    rw [hCS] at hFail ⊢
    by_cases h2 : (FreeRTOSMgr.createEventGroups s1 o).2 = true
    · by_cases h3 : (FreeRTOSMgr.createQueues (FreeRTOSMgr.createEventGroups s1 o).1 o).2 = true
      · simp [← hs1, h2, h3] at hFail
      · simp [← hs1, h2, Bool.eq_false_iff.mpr h3, hsem3.1, hsem3.2, hsem2.1, hsem2.2, hAll]
    · simp [← hs1, Bool.eq_false_iff.mpr h2, hsem2.1, hsem2.2, hAll]

/-- Witness for C2: the first conjunct applied to the state left by the
failed initialize() of the counterexample scenario (semaphores created,
event group missing), the second applied to the fresh registry under the
counterexample oracle. -/
theorem C2_no_cleanup_on_failure_witness :
    ((FreeRTOSMgr.initMgr FreeRTOSMgr.c2Run1.1 FreeRTOSMgr.c2Oracle).1).semaphores
      = FreeRTOSMgr.c2Run1.1.semaphores
  ∧ (((FreeRTOSMgr.initMgr FreeRTOSMgr.freshState FreeRTOSMgr.c2Oracle).1).semaphoresCreated = true
     ∧ FreeRTOSMgr.allSome
         ((FreeRTOSMgr.initMgr FreeRTOSMgr.freshState FreeRTOSMgr.c2Oracle).1).semaphores = true) :=
  ⟨C2_no_cleanup_on_failure.1 FreeRTOSMgr.c2Run1.1 FreeRTOSMgr.c2Oracle (by decide) (by decide),
   C2_no_cleanup_on_failure.2 FreeRTOSMgr.freshState FreeRTOSMgr.c2Oracle (by decide) (by decide)
     (by decide) (by decide)⟩

/-! # C3 amended: recovery gating, spacing, and the failed-attempt cap -/

namespace I2CMgr

/-- Case analysis of one health check: either nothing happens (state and
instrumentation unchanged), or a recovery attempt starts, in which case
all three gates held and the state records the attempt. -/
theorem updateBusHealth_cases (st : I2CRecState) (inp : HealthInput) :
    updateBusHealth st inp = (st, false)
  ∨ ((updateBusHealth st inp).2 = true
     ∧ successRateLtHalf inp.transactionCount inp.errorCount = true
     ∧ st.lastRecoveryTime + 10000 ≤ inp.now
     ∧ st.recoveryAttempts < 3
     ∧ (updateBusHealth st inp).1.lastRecoveryTime = inp.now
     ∧ (updateBusHealth st inp).1.recoveryAttempts
         = (if inp.recoverOk then 0 else st.recoveryAttempts + 1)
     ∧ (updateBusHealth st inp).1.busRecoveryInProgress = false) := by
  unfold updateBusHealth
  by_cases hg : (!isBusHealthy inp.transactionCount inp.errorCount
      && shouldAttemptRecovery st inp.now inp.transactionCount inp.errorCount) = true
  · rw [if_pos hg]
    have hs : shouldAttemptRecovery st inp.now inp.transactionCount inp.errorCount = true :=
      (Bool.and_eq_true _ _ |>.mp hg).2
    unfold shouldAttemptRecovery at hs
    rw [Bool.and_eq_true, Bool.and_eq_true] at hs
    obtain ⟨⟨h10, h3⟩, hrate⟩ := hs
    simp only [Bool.not_eq_true', decide_eq_false_iff_not] at h10 h3
    cases hb : st.busRecoveryInProgress with
    | true => left; simp [recoverBus, hb]
    | false =>
      right
      cases hok : inp.recoverOk <;>
        simp [recoverBus, hb, hok, hrate] <;> omega
  · rw [if_neg hg]
    left
    rfl

/-- Every collected recovery start time lies at least 10 s after the
last recovery recorded in the starting state. -/
theorem runHealth_lb : ∀ (ins : List HealthInput) (st : I2CRecState) (t : Nat),
    t ∈ (runHealth st ins).2 → st.lastRecoveryTime + 10000 ≤ t := by
  intro ins
  induction ins with
  | nil => intro st t ht; simp [runHealth] at ht
  | cons inp rest ih =>
    intro st t ht
    rcases updateBusHealth_cases st inp with hcase | ⟨hatt, _, h10, _, hlast, _, _⟩
    · simp [runHealth, hcase] at ht
      exact ih st t ht
    · simp [runHealth, hatt] at ht
      rcases ht with rfl | ht
      · omega
      · have := ih (updateBusHealth st inp).1 t ht
        rw [hlast] at this
        omega

/-- Consecutive recovery attempts start at least 10 s apart. -/
theorem runHealth_chain : ∀ (ins : List HealthInput) (st : I2CRecState),
    List.Chain' (fun a b => a + 10000 ≤ b) (runHealth st ins).2 := by
  intro ins
  induction ins with
  | nil => intro st; simp [runHealth]
  | cons inp rest ih =>
    intro st
    rcases updateBusHealth_cases st inp with hcase | ⟨hatt, _, _, _, hlast, _, _⟩
    · simp [runHealth, hcase]
      exact ih st
    · simp [runHealth, hatt]
      rw [List.chain'_cons']
      refine ⟨fun b hb => ?_, ih _⟩
      have hbmem : b ∈ (runHealth (updateBusHealth st inp).1 rest).2 :=
        List.mem_of_mem_head? hb
      have := runHealth_lb rest (updateBusHealth st inp).1 b hbmem
      rw [hlast] at this
      omega

/-- When every recovery fails, the attempt counter only grows, so the
number of recovery attempts in a run is capped by the remaining budget
below 3. -/
theorem runHealth_cap : ∀ (ins : List HealthInput) (st : I2CRecState),
    (∀ inp ∈ ins, inp.recoverOk = false) →
    (runHealth st ins).2.length + min st.recoveryAttempts 3 ≤ 3 := by
  intro ins
  induction ins with
  | nil => intro st _; simp [runHealth]
  | cons inp rest ih =>
    intro st hall
    have hok : inp.recoverOk = false := hall inp (by simp)
    have hrest : ∀ i ∈ rest, i.recoverOk = false := fun i hi => hall i (by simp [hi])
    rcases updateBusHealth_cases st inp with hcase | ⟨hatt, _, _, h3, _, hatts, _⟩
    · simp [runHealth, hcase]
      exact ih st hrest
    · simp [runHealth, hatt]
      have h1 := ih (updateBusHealth st inp).1 hrest
      rw [hatts, hok] at h1
      simp at h1
      omega

end I2CMgr

/-- C3 (amended): a bus recovery attempt starts only when the transaction
success rate is below 50%, at least 10 seconds have passed since the last
recorded recovery, and the stored attempt counter is below 3; two recovery
attempts never start less than 10 seconds apart; and in any run of the
health loop in which every recovery fails, at most 3 recovery attempts
occur in total.  (The counter is reset to 0 by a successful recovery, so
with successful recoveries the total is not capped at 3 - see the
counterexample.) -/
theorem C3_recovery_gating :
    (∀ (st : I2CMgr.I2CRecState) (inp : I2CMgr.HealthInput),
        (I2CMgr.updateBusHealth st inp).2 = true →
        I2CMgr.successRateLtHalf inp.transactionCount inp.errorCount = true
        ∧ st.lastRecoveryTime + 10000 ≤ inp.now
        ∧ st.recoveryAttempts < 3)
  ∧ (∀ (st : I2CMgr.I2CRecState) (ins : List I2CMgr.HealthInput),
        List.Chain' (fun a b => a + 10000 ≤ b) ((I2CMgr.runHealth st ins).2))
  ∧ (∀ ins : List I2CMgr.HealthInput,
        (∀ inp ∈ ins, inp.recoverOk = false) →
        ((I2CMgr.runHealth I2CMgr.i2cInit ins).2).length ≤ 3) := by
  refine ⟨fun st inp h => ?_, fun st ins => I2CMgr.runHealth_chain ins st, fun ins h => ?_⟩
  · rcases I2CMgr.updateBusHealth_cases st inp with hcase | ⟨_, hrate, h10, h3, _, _, _⟩
    · rw [hcase] at h
      simp at h
    · exact ⟨hrate, h10, h3⟩
  · have := I2CMgr.runHealth_cap ins I2CMgr.i2cInit h
    simpa using this

/-- Witness for C3: the gating conjunct applied to the first check of the
counterexample trace, and the cap conjunct applied to a four-check trace
whose recoveries all fail (at most 3 attempts happen). -/
theorem C3_recovery_gating_witness :
    (I2CMgr.successRateLtHalf (1 : Nat) 1 = true
     ∧ I2CMgr.i2cInit.lastRecoveryTime + 10000 ≤ 10000
     ∧ I2CMgr.i2cInit.recoveryAttempts < 3)
  ∧ ((I2CMgr.runHealth I2CMgr.i2cInit c3FailInputs).2).length ≤ 3 :=
  ⟨C3_recovery_gating.1 I2CMgr.i2cInit ⟨10000, 1, 1, true⟩ (by decide),
   C3_recovery_gating.2.2 c3FailInputs (by decide)⟩

/-! # C9: overall network health is the worst transport health -/

namespace Watchdog

/-- A health check reporting `disconnected` always leaves the transport
assessed Offline and marked disconnected. -/
theorem updateCS_disconnected (st : ConnectionStatus) (d : ResponseTimeData)
    (rt now : Nat) :
    ((updateConnectionStatus st d false rt now).1).health = .OFFLINE
    ∧ ((updateConnectionStatus st d false rt now).1).connected = false := by
  cases h : st.connected <;>
    simp [updateConnectionStatus, assessConnectionHealth, h]

/-- After performHealthChecks, the BLE transport (whose simulated check
reports disconnected) is Offline. -/
theorem performHealthChecks_ble (s : WatchdogState) (now : Nat) :
    ((performHealthChecks s now).connections 2).health = .OFFLINE
    ∧ ((performHealthChecks s now).connections 2).connected = false := by
  simp [performHealthChecks, wUpdateConnectionStatus, updateCS_disconnected]

/-- Folding the worst-health step over Offline yields Offline. -/
theorem worstStep_offline : ∀ x : NetworkHealth, worstStep x .OFFLINE = .OFFLINE := by
  intro x
  cases x <;> rfl

/-- Every health rank is at most Offline's rank. -/
theorem healthRank_le_four : ∀ x : NetworkHealth, healthRank x ≤ 4 := by
  intro x
  cases x <;> simp [healthRank]

/-- If the BLE transport is Offline, the computed overall health is
Offline. -/
theorem calcOverall_offline (s : WatchdogState)
    (h : (s.connections 2).health = .OFFLINE) :
    calculateOverallHealth s = .OFFLINE := by
  unfold calculateOverallHealth
  rw [h]
  exact worstStep_offline _

/-- The timeout scan never touches the overall health field. -/
theorem checkTimeoutStep_overall (now : Nat) (s : WatchdogState) (i : Fin 3) :
    (checkTimeoutStep now s i).overallHealth = s.overallHealth := by
  unfold checkTimeoutStep wUpdateConnectionStatus
  dsimp only
  split_ifs <;> rfl

/-- The timeout scan at transport `i` leaves other transports alone. -/
theorem checkTimeoutStep_conn (now : Nat) (s : WatchdogState) (i j : Fin 3)
    (hne : j ≠ i) :
    (checkTimeoutStep now s i).connections j = s.connections j := by
  unfold checkTimeoutStep wUpdateConnectionStatus
  dsimp only
  split_ifs <;> simp [hne]

/-- The timeout scan leaves a disconnected transport's status alone. -/
theorem checkTimeoutStep_conn_self (now : Nat) (s : WatchdogState) (i : Fin 3)
    (h : (s.connections i).connected = false) :
    (checkTimeoutStep now s i).connections i = s.connections i := by
  unfold checkTimeoutStep
  dsimp only
  have hg : ((s.connections i).connected
      && decide (CONNECTION_TIMEOUT < now - (s.connections i).lastConnected)) = false := by
    simp [h]
  rw [hg]
  simp only [Bool.false_eq_true, if_false]
  split_ifs <;> rfl

/-- checkConnectionTimeouts preserves a disconnected BLE transport and the
overall health. -/
theorem checkConnectionTimeouts_ble (s : WatchdogState) (now : Nat)
    (h : (s.connections 2).connected = false) :
    (checkConnectionTimeouts s now).connections 2 = s.connections 2
    ∧ (checkConnectionTimeouts s now).overallHealth = s.overallHealth := by
  unfold checkConnectionTimeouts
  have e0 : (checkTimeoutStep now s 0).connections 2 = s.connections 2 :=
    checkTimeoutStep_conn now s 0 2 (by decide)
  have e1 : (checkTimeoutStep now (checkTimeoutStep now s 0) 1).connections 2
      = s.connections 2 := by
    rw [checkTimeoutStep_conn now _ 1 2 (by decide), e0]
  constructor
  · rw [checkTimeoutStep_conn_self now _ 2 (by rw [e1, h]), e1]
  · rw [checkTimeoutStep_overall, checkTimeoutStep_overall, checkTimeoutStep_overall]

/-- triggerRecovery changes no transport's health and not the overall
health (it only books the attempt). -/
theorem triggerRecovery_health (s : WatchdogState) (i : Fin 3) (now : Nat) (j : Fin 3) :
    ((triggerRecovery s i now).connections j).health = (s.connections j).health
    ∧ (triggerRecovery s i now).overallHealth = s.overallHealth := by
  unfold triggerRecovery executeRecovery
  dsimp only
  split_ifs
  · exact ⟨rfl, rfl⟩
  · by_cases hj : j = i
    · subst hj
      simp
    · simp [hj]

/-- One evaluateRecoveryNeeds step preserves healths and overall health. -/
theorem evaluateStep_health (now : Nat) (s : WatchdogState) (i j : Fin 3) :
    ((evaluateStep now s i).connections j).health = (s.connections j).health
    ∧ (evaluateStep now s i).overallHealth = s.overallHealth := by
  unfold evaluateStep
  split_ifs
  · exact triggerRecovery_health s i now j
  · exact ⟨rfl, rfl⟩

/-- evaluateRecoveryNeeds preserves healths and overall health. -/
theorem evaluateRecoveryNeeds_health (s : WatchdogState) (now : Nat) (j : Fin 3) :
    ((evaluateRecoveryNeeds s now).connections j).health = (s.connections j).health
    ∧ (evaluateRecoveryNeeds s now).overallHealth = s.overallHealth := by
  unfold evaluateRecoveryNeeds
  have h0 := evaluateStep_health now s 0 j
  have h1 := evaluateStep_health now (evaluateStep now s 0) 1 j
  have h2 := evaluateStep_health now (evaluateStep now (evaluateStep now s 0) 1) 2 j
  exact ⟨by rw [h2.1, h1.1, h0.1], by rw [h2.2, h1.2, h0.2]⟩

/-- After any single watchdog cycle, the BLE transport is Offline and the
overall health is Offline. -/
theorem watchdogCycle_post (s : WatchdogState) (now : Nat) :
    ((watchdogCycle s now).connections 2).health = .OFFLINE
    ∧ (watchdogCycle s now).overallHealth = .OFFLINE := by
  unfold watchdogCycle
  dsimp only
  have hble := performHealthChecks_ble s now
  set s1 := performHealthChecks s now with hs1
  set s2 : WatchdogState := { s1 with overallHealth := calculateOverallHealth s1 } with hs2
  have h2h : (s2.connections 2).health = .OFFLINE := hble.1
  have h2c : (s2.connections 2).connected = false := hble.2
  have h2o : s2.overallHealth = .OFFLINE := calcOverall_offline s1 hble.1
  have hct := checkConnectionTimeouts_ble s2 now h2c
  have hev1 := evaluateRecoveryNeeds_health (checkConnectionTimeouts s2 now) now 2
  constructor
  · rw [hev1.1, hct.1, h2h]
  · rw [hev1.2, hct.2, h2o]

/-- After any nonempty run of the watchdog loop, the BLE transport and the
overall health are Offline. -/
theorem runWatchdog_post (ts : List Nat) : ∀ s : WatchdogState, ts ≠ [] →
    ((runWatchdog s ts).connections 2).health = .OFFLINE
    ∧ (runWatchdog s ts).overallHealth = .OFFLINE := by
  induction ts with
  | nil => intro s h; exact absurd rfl h
  | cons t rest ih =>
    intro s _
    rw [show runWatchdog s (t :: rest) = runWatchdog (watchdogCycle s t) rest from rfl]
    by_cases hrest : rest = []
    · subst hrest
      simpa [runWatchdog] using watchdogCycle_post s t
    · exact ih (watchdogCycle s t) hrest

end Watchdog

/-- C9: after every watchdog poll cycle (and at initialization),
getOverallNetworkHealth() equals the worst of the three per-transport
health values, where worst means maximal health rank (Excellent best at
rank 0, Offline worst at rank 4): every transport's health rank is at
most the overall value's, and the overall value is attained by some
transport. -/
theorem C9_overall_is_worst (ts : List Nat) :
    (∀ i : Fin 3, Watchdog.healthRank
        (((Watchdog.runWatchdog Watchdog.watchdogInit ts).connections i).health)
      ≤ Watchdog.healthRank
          (Watchdog.getOverallNetworkHealth (Watchdog.runWatchdog Watchdog.watchdogInit ts)))
  ∧ (∃ i : Fin 3, ((Watchdog.runWatchdog Watchdog.watchdogInit ts).connections i).health
      = Watchdog.getOverallNetworkHealth (Watchdog.runWatchdog Watchdog.watchdogInit ts)) := by
  by_cases h : ts = []
  · subst h
    exact ⟨fun i => by fin_cases i <;> decide, ⟨0, rfl⟩⟩
  · have hp := Watchdog.runWatchdog_post ts Watchdog.watchdogInit h
    constructor
    · intro i
      rw [Watchdog.getOverallNetworkHealth, hp.2]
      simpa using Watchdog.healthRank_le_four _
    · exact ⟨2, by rw [Watchdog.getOverallNetworkHealth, hp.2, hp.1]⟩

/-! # C6: allocate's banding and fallback order -/

section ProofsC6

open StaticBLEMemory

/-- The fallback for-loop equals first-fit over the list filtered by the
loop's skip condition. -/
theorem allocLoop_eq (s : AllocState) (asize : Nat) (pt : PoolIdx) :
    ∀ l : List PoolIdx,
      allocLoop s asize pt l
        = firstAlloc s asize (l.filter fun i => !(i == pt || i == POOL_GENERAL)) := by
  intro l
  induction l with
  | nil => rfl
  | cons i rest ih =>
    by_cases hb : (i == pt || i == POOL_GENERAL) = true
    · have hf : (i :: rest).filter (fun j => !(j == pt || j == POOL_GENERAL))
          = rest.filter (fun j => !(j == pt || j == POOL_GENERAL)) :=
        List.filter_cons_of_neg (by simp [hb])
      rw [allocLoop, if_pos hb, hf]
      exact ih
    · have hb' : (i == pt || i == POOL_GENERAL) = false := by simpa using hb
      have hf : (i :: rest).filter (fun j => !(j == pt || j == POOL_GENERAL))
          = i :: rest.filter (fun j => !(j == pt || j == POOL_GENERAL)) :=
        List.filter_cons_of_pos (by simp [hb'])
      rw [allocLoop, if_neg (by simp [hb']), hf]
      cases htp : tryPool s asize i <;> simp [firstAlloc, htp, ih]

/-- The three-stage pool selection of allocate equals first-fit over the
tryOrder list. -/
theorem allocateCore_eq (s : AllocState) (asize : Nat) (pt : PoolIdx) :
    allocateCore s asize pt = firstAlloc s asize (tryOrder pt) := by
  unfold allocateCore tryOrder
  by_cases h4 : (pt == POOL_GENERAL) = true
  · rw [allocLoop_eq]
    cases htp : tryPool s asize pt <;>
      simp [firstAlloc, htp, h4]
  · have h4' : (pt == POOL_GENERAL) = false := by simpa using h4
    rw [allocLoop_eq]
    cases htp : tryPool s asize pt <;>
      cases htg : tryPool s asize POOL_GENERAL <;>
        simp [firstAlloc, htp, htg, h4']

/-- first-fit returns none exactly when every listed pool fails. -/
theorem firstAlloc_eq_none_iff (s : AllocState) (asize : Nat) :
    ∀ l : List PoolIdx,
      (firstAlloc s asize l = none ↔ ∀ i ∈ l, tryPool s asize i = none) := by
  intro l
  induction l with
  | nil => simp [firstAlloc]
  | cons i rest ih =>
    cases htp : tryPool s asize i <;> simp [firstAlloc, htp, ih]

/-- tryPool fails exactly when allocateFromPool fails on that pool. -/
theorem tryPool_eq_none_iff (s : AllocState) (asize : Nat) (i : PoolIdx) :
    tryPool s asize i = none ↔ allocateFromPool (s.pools i) asize = none := by
  unfold tryPool
  cases h : allocateFromPool (s.pools i) asize with
  | none => simp
  | some v => cases v; simp

/-- Every pool index appears in every tryOrder list. -/
theorem mem_tryOrder : ∀ (pt i : PoolIdx), i ∈ tryOrder pt := by decide

/-- allocateFromPool refuses a zero-size request. -/
theorem allocateFromPool_zero (p : PoolManager) : allocateFromPool p 0 = none := by
  simp [allocateFromPool]

end ProofsC6

/-- C6: for every size (on an initialized allocator), allocate rounds the
size up to 4-byte alignment, consults the fixed banding rule on the
aligned size (proved identical to the spec's size-banding rule), and
behaves as first-fit over the order optimal pool, then the general pool,
then the remaining pools in index order; it returns null exactly when no
arena can satisfy the (aligned) request. -/
theorem C6_allocate_fallback (s : StaticBLEMemory.AllocState) (size : Nat)
    (h : s.inited = true) :
    ((StaticBLEMemory.allocate s size).1
        = Option.map Prod.fst (firstAlloc s (StaticBLEMemory.alignSize size)
            (tryOrder (StaticBLEMemory.getOptimalPool (StaticBLEMemory.alignSize size)))))
  ∧ ((StaticBLEMemory.allocate s size).1 = none
      ↔ ∀ i : StaticBLEMemory.PoolIdx,
          StaticBLEMemory.allocateFromPool (s.pools i) (StaticBLEMemory.alignSize size) = none)
  ∧ StaticBLEMemory.getOptimalPool (StaticBLEMemory.alignSize size)
      = specOptimalArena (StaticBLEMemory.alignSize size)
  ∧ size ≤ StaticBLEMemory.alignSize size
  ∧ StaticBLEMemory.alignSize size < size + 4
  ∧ StaticBLEMemory.alignSize size % 4 = 0 := by
  have hmap : (StaticBLEMemory.allocate s size).1
      = Option.map Prod.fst (firstAlloc s (StaticBLEMemory.alignSize size)
          (tryOrder (StaticBLEMemory.getOptimalPool (StaticBLEMemory.alignSize size)))) := by
    by_cases hz : size = 0
    · subst hz
      have hall : ∀ i ∈ tryOrder (StaticBLEMemory.getOptimalPool (StaticBLEMemory.alignSize 0)),
          StaticBLEMemory.tryPool s (StaticBLEMemory.alignSize 0) i = none := by
        intro i _
        rw [tryPool_eq_none_iff]
        exact allocateFromPool_zero (s.pools i)
      rw [(firstAlloc_eq_none_iff s (StaticBLEMemory.alignSize 0) _).mpr hall]
      simp [StaticBLEMemory.allocate]
    · unfold StaticBLEMemory.allocate
      rw [if_neg (by simp [h, hz])]
      dsimp only
      rw [allocateCore_eq]
      cases hfa : firstAlloc s (StaticBLEMemory.alignSize size)
          (tryOrder (StaticBLEMemory.getOptimalPool (StaticBLEMemory.alignSize size))) with
      | none => simp
      | some r => cases r; simp
  refine ⟨hmap, ?_, rfl, ?_, ?_, ?_⟩
  · rw [hmap]
    constructor
    · intro hn i
      have h1 : firstAlloc s (StaticBLEMemory.alignSize size)
          (tryOrder (StaticBLEMemory.getOptimalPool (StaticBLEMemory.alignSize size))) = none :=
        Option.map_eq_none'.mp hn
      exact (tryPool_eq_none_iff s _ i).mp
        ((firstAlloc_eq_none_iff s _ _).mp h1 i (mem_tryOrder _ i))
    · intro hall
      apply Option.map_eq_none'.mpr
      apply (firstAlloc_eq_none_iff s _ _).mpr
      intro i _
      exact (tryPool_eq_none_iff s _ i).mpr (hall i)
  · unfold StaticBLEMemory.alignSize
    omega
  · unfold StaticBLEMemory.alignSize
    omega
  · unfold StaticBLEMemory.alignSize
    omega

/-- Witness for C6 at the initialized allocator and a 64-byte request. -/
theorem C6_allocate_fallback_witness :
    ((StaticBLEMemory.allocate StaticBLEMemory.initState 64).1
        = Option.map Prod.fst (firstAlloc StaticBLEMemory.initState
            (StaticBLEMemory.alignSize 64)
            (tryOrder (StaticBLEMemory.getOptimalPool (StaticBLEMemory.alignSize 64)))))
  ∧ StaticBLEMemory.getOptimalPool (StaticBLEMemory.alignSize 64)
      = specOptimalArena (StaticBLEMemory.alignSize 64) :=
  ⟨(C6_allocate_fallback StaticBLEMemory.initState 64 rfl).1,
   (C6_allocate_fallback StaticBLEMemory.initState 64 rfl).2.2.1⟩

/-! # C7 and C10: capacity bounds and used-counter monotonicity -/

section ProofsC7C10

open StaticBLEMemory

/-- The free-list walk never changes the pool's size, used count,
initialization flag, or allocation count (it only relinks headers). -/
theorem removeAux_fields (sz : Nat) (p : PoolManager) :
    ∀ (fuel : Nat) (prev cur : Option Nat) (r : Nat × PoolManager),
      removeAux sz p fuel prev cur = some r →
      r.2.used = p.used ∧ r.2.size = p.size ∧ r.2.inited = p.inited := by
  intro fuel
  induction fuel with
  | zero => intro prev cur r h; cases cur <;> simp [removeAux] at h
  | succ n ih =>
    intro prev cur r h
    cases cur with
    | none => simp [removeAux] at h
    | some c =>
      simp only [removeAux] at h
      by_cases hle : sz ≤ (p.headers c).size
      · rw [if_pos hle] at h
        cases prev with
        | none =>
          cases h
          exact ⟨rfl, rfl, rfl⟩
        | some pr =>
          cases h
          exact ⟨rfl, rfl, rfl⟩
      · rw [if_neg hle] at h
        exact ih (some c) (p.headers c).next r h

/-- removeFromFreeList preserves size, used, and the init flag. -/
theorem removeFromFreeList_fields (p : PoolManager) (sz : Nat) (r : Nat × PoolManager)
    (h : removeFromFreeList p sz = some r) :
    r.2.used = p.used ∧ r.2.size = p.size ∧ r.2.inited = p.inited := by
  unfold removeFromFreeList at h
  cases hf : p.freeList with
  | none => rw [hf] at h; simp at h
  | some c =>
    rw [hf] at h
    exact removeAux_fields sz p (p.size + 1) none (some c) r h

/-- A successful allocateFromPool keeps the pool size and init flag, never
decreases `used`, and keeps `used` within the pool size. -/
theorem allocateFromPool_spec (p : PoolManager) (sz : Nat) (r : Nat × PoolManager)
    (h : allocateFromPool p sz = some r) :
    r.2.size = p.size ∧ r.2.inited = p.inited
    ∧ p.used ≤ r.2.used ∧ r.2.used ≤ p.size := by
  unfold allocateFromPool at h
  by_cases hg : ¬p.inited ∨ sz = 0
  · rw [if_pos hg] at h; simp at h
  · rw [if_neg hg] at h
    dsimp only at h
    by_cases hcap : p.size < p.used + (sz + HEADER_SIZE)
    · rw [if_pos hcap] at h; simp at h
    · rw [if_neg hcap] at h
      cases hrm : removeFromFreeList p (sz + HEADER_SIZE) with
      | some rr =>
        rw [hrm] at h
        have hf := removeFromFreeList_fields p (sz + HEADER_SIZE) rr hrm
        cases h
        refine ⟨hf.2.1, hf.2.2, ?_, ?_⟩
        · rw [show ({ writeHeader rr.2 rr.1 ⟨sz, true, BLE_MEMORY_MAGIC, none⟩ with
              allocationCount := (writeHeader rr.2 rr.1
                ⟨sz, true, BLE_MEMORY_MAGIC, none⟩).allocationCount + 1 } :
              PoolManager).used = rr.2.used from rfl, hf.1]
        · rw [show ({ writeHeader rr.2 rr.1 ⟨sz, true, BLE_MEMORY_MAGIC, none⟩ with
              allocationCount := (writeHeader rr.2 rr.1
                ⟨sz, true, BLE_MEMORY_MAGIC, none⟩).allocationCount + 1 } :
              PoolManager).used = rr.2.used from rfl, hf.1]
          omega
      | none =>
        rw [hrm, if_neg hcap] at h
        cases h
        refine ⟨rfl, rfl, ?_, ?_⟩ <;> dsimp [writeHeader] <;> omega

/-- deallocateFromPool never changes the pool's size, used count, or init
flag (it only flips the allocated bit and relinks the free list). -/
theorem deallocateFromPool_fields (p : PoolManager) (off : Nat) :
    ((deallocateFromPool p off).2).used = p.used
    ∧ ((deallocateFromPool p off).2).size = p.size
    ∧ ((deallocateFromPool p off).2).inited = p.inited := by
  unfold deallocateFromPool addToFreeList writeHeader
  dsimp only
  split_ifs <;> exact ⟨rfl, rfl, rfl⟩

/-- A successful tryPool touches exactly the tried pool, replacing it by
the allocateFromPool result. -/
theorem tryPool_spec (s : AllocState) (asize : Nat) (j : PoolIdx)
    (r : BLEPtr × AllocState) (h : tryPool s asize j = some r) :
    (∀ i, i ≠ j → r.2.pools i = s.pools i)
    ∧ (∃ rr, allocateFromPool (s.pools j) asize = some rr ∧ r.2.pools j = rr.2)
    ∧ r.2.inited = s.inited := by
  unfold tryPool at h
  cases hfa : allocateFromPool (s.pools j) asize with
  | none => rw [hfa] at h; simp at h
  | some rr =>
    rw [hfa] at h
    cases h
    refine ⟨fun i hij => ?_, ⟨rr, rfl, ?_⟩, rfl⟩
    · simp [setPool, hij]
    · simp [setPool]

/-- A successful first-fit run changes each pool either not at all or to
the result of a successful allocateFromPool on it. -/
theorem firstAlloc_spec (s : AllocState) (asize : Nat) :
    ∀ (l : List PoolIdx) (r : BLEPtr × AllocState),
      firstAlloc s asize l = some r →
      (∀ i, r.2.pools i = s.pools i
         ∨ ∃ rr, allocateFromPool (s.pools i) asize = some rr ∧ r.2.pools i = rr.2)
      ∧ r.2.inited = s.inited := by
  intro l
  induction l with
  | nil => intro r h; simp [firstAlloc] at h
  | cons j rest ih =>
    intro r h
    rw [firstAlloc] at h
    cases htp : tryPool s asize j with
    | some rr =>
      rw [htp] at h
      cases h
      have hs := tryPool_spec s asize j r htp
      refine ⟨fun i => ?_, hs.2.2⟩
      by_cases hij : i = j
      · subst hij
        exact Or.inr hs.2.1
      · exact Or.inl (hs.1 i hij)
    | none =>
      rw [htp] at h
      exact ih r h

/-- allocate changes each pool either not at all or to the result of a
successful allocateFromPool at the aligned size; the init flag is kept. -/
theorem allocate_pools_spec (s : AllocState) (n : Nat) :
    (∀ i, ((allocate s n).2).pools i = s.pools i
       ∨ ∃ rr, allocateFromPool (s.pools i) (alignSize n) = some rr
           ∧ ((allocate s n).2).pools i = rr.2)
    ∧ ((allocate s n).2).inited = s.inited := by
  unfold allocate
  by_cases hz : ¬s.inited ∨ n = 0
  · rw [if_pos hz]
    exact ⟨fun i => Or.inl rfl, rfl⟩
  · rw [if_neg hz]
    dsimp only
    rw [allocateCore_eq]
    cases hfa : firstAlloc s (alignSize n) (tryOrder (getOptimalPool (alignSize n))) with
    | none => exact ⟨fun i => Or.inl rfl, rfl⟩
    | some r =>
      have hs := firstAlloc_spec s (alignSize n) _ r hfa
      cases r with
      | mk ptr s1 =>
        dsimp only
        constructor
        · intro i
          rcases hs.1 i with heq | hex
          · left
            split_ifs <;> exact heq
          · right
            obtain ⟨rr, hfa2, heq⟩ := hex
            exact ⟨rr, hfa2, by split_ifs <;> exact heq⟩
        · split_ifs <;> exact hs.2

/-- deallocate changes no pool's used count, size, or init flag, and
keeps the manager's init flag. -/
theorem deallocate_pools_fields (s : AllocState) (ptr : BLEPtr) (i : PoolIdx) :
    (((deallocate s ptr).2).pools i).used = (s.pools i).used
    ∧ (((deallocate s ptr).2).pools i).size = (s.pools i).size
    ∧ (((deallocate s ptr).2).pools i).inited = (s.pools i).inited
    ∧ ((deallocate s ptr).2).inited = s.inited := by
  unfold deallocate
  by_cases hi : ¬s.inited
  · rw [if_pos hi]
    exact ⟨rfl, rfl, rfl, rfl⟩
  · rw [if_neg hi]
    cases hf : findPoolForPointer s ptr with
    | none => exact ⟨rfl, rfl, rfl, rfl⟩
    | some j =>
      dsimp only
      have hd := deallocateFromPool_fields (s.pools j) ptr.off
      cases hdp : deallocateFromPool (s.pools j) ptr.off with
      | mk res p1 =>
        rw [hdp] at hd
        cases res with
        | freed =>
          dsimp only
          have hd' : p1.used = (s.pools j).used ∧ p1.size = (s.pools j).size
              ∧ p1.inited = (s.pools j).inited := hd
          refine ⟨?_, ?_, ?_, rfl⟩ <;>
            · by_cases hij : i = j
              · subst hij
                simp [setPool, hd'.1, hd'.2.1, hd'.2.2]
              · simp [setPool, hij]
        | skipped => exact ⟨rfl, rfl, rfl, rfl⟩
        | notInPool => exact ⟨rfl, rfl, rfl, rfl⟩
        | corrupt => exact ⟨rfl, rfl, rfl, rfl⟩

/-- One allocate/deallocate operation preserves the arena invariant. -/
theorem stepOp_inv (s : AllocState) (op : AllocOp) (h : PoolInv s) :
    PoolInv (stepOp s op) := by
  cases op with
  | alloc n =>
    intro i
    rcases (allocate_pools_spec s n).1 i with heq | ⟨rr, hfa, heq⟩
    · dsimp only [stepOp]
      rw [heq]
      exact h i
    · dsimp only [stepOp]
      rw [heq]
      have hspec := allocateFromPool_spec (s.pools i) (alignSize n) rr hfa
      refine ⟨?_, ?_⟩
      · rw [hspec.1]
        exact hspec.2.2.2
      · rw [hspec.1]
        exact (h i).2
  | free p =>
    intro i
    have hf := deallocate_pools_fields s p i
    dsimp only [stepOp]
    rw [hf.1, hf.2.1]
    exact h i

/-- Any operation sequence preserves the arena invariant. -/
theorem runOps_inv (ops : List AllocOp) : ∀ s, PoolInv s → PoolInv (runOps s ops) := by
  induction ops with
  | nil => intro s h; exact h
  | cons op rest ih => intro s h; exact ih (stepOp s op) (stepOp_inv s op h)

/-- The initialized allocator satisfies the arena invariant. -/
theorem initState_inv : PoolInv initState := by
  intro i
  exact ⟨Nat.zero_le _, rfl⟩

/-- One operation never decreases any arena's used count. -/
theorem stepOp_used_mono (s : AllocState) (op : AllocOp) (i : PoolIdx) :
    (s.pools i).used ≤ ((stepOp s op).pools i).used := by
  cases op with
  | alloc n =>
    rcases (allocate_pools_spec s n).1 i with heq | ⟨rr, hfa, heq⟩
    · dsimp only [stepOp]
      rw [heq]
    · dsimp only [stepOp]
      rw [heq]
      exact (allocateFromPool_spec (s.pools i) (alignSize n) rr hfa).2.2.1
  | free p =>
    dsimp only [stepOp]
    rw [(deallocate_pools_fields s p i).1]

/-- Operation sequences never decrease any arena's used count. -/
theorem runOps_used_mono (ops : List AllocOp) :
    ∀ (s : AllocState) (i : PoolIdx),
      (s.pools i).used ≤ ((runOps s ops).pools i).used := by
  induction ops with
  | nil => intro s i; exact Nat.le_refl _
  | cons op rest ih =>
    intro s i
    exact Nat.le_trans (stepOp_used_mono s op i) (ih (stepOp s op) i)

end ProofsC7C10

/-- C7: over every allocate/deallocate sequence from the initialized
allocator, each arena's used byte count stays within that arena's
capacity, hence the total used size never exceeds the total capacity;
and an allocate call that returns null leaves the entire allocator state
(every arena's used count, free list and allocation count, and the
global counters) unchanged. -/
theorem C7_bounded_capacity :
    (∀ (ops : List StaticBLEMemory.AllocOp) (i : StaticBLEMemory.PoolIdx),
        ((StaticBLEMemory.runOps StaticBLEMemory.initState ops).pools i).used
          ≤ ((StaticBLEMemory.runOps StaticBLEMemory.initState ops).pools i).size)
  ∧ (∀ ops : List StaticBLEMemory.AllocOp,
        StaticBLEMemory.getUsedSize (StaticBLEMemory.runOps StaticBLEMemory.initState ops)
          ≤ StaticBLEMemory.getTotalSize)
  ∧ (∀ (s : StaticBLEMemory.AllocState) (n : Nat),
        (StaticBLEMemory.allocate s n).1 = none → (StaticBLEMemory.allocate s n).2 = s) := by
  refine ⟨fun ops i => ?_, fun ops => ?_, fun s n h => ?_⟩
  · exact (runOps_inv ops StaticBLEMemory.initState
      initState_inv i).1
  · have hinv := runOps_inv ops StaticBLEMemory.initState
      initState_inv
    have h0 := hinv 0
    have h1 := hinv 1
    have h2 := hinv 2
    have h3 := hinv 3
    have h4 := hinv 4
    have e0 : StaticBLEMemory.poolSizes 0 = 2048 := rfl
    have e1 : StaticBLEMemory.poolSizes 1 = 1024 := rfl
    have e2 : StaticBLEMemory.poolSizes 2 = 512 := rfl
    have e3 : StaticBLEMemory.poolSizes 3 = 1024 := rfl
    have e4 : StaticBLEMemory.poolSizes 4 = 3584 := rfl
    rw [e0] at h0
    rw [e1] at h1
    rw [e2] at h2
    rw [e3] at h3
    rw [e4] at h4
    unfold StaticBLEMemory.getUsedSize StaticBLEMemory.getTotalSize
      StaticBLEMemory.BLE_STATIC_POOL_SIZE
    split_ifs
    · omega
    · omega
  · unfold StaticBLEMemory.allocate at h ⊢
    by_cases hz : ¬s.inited ∨ n = 0
    · rw [if_pos hz]
    · rw [if_neg hz] at h ⊢
      dsimp only at h ⊢
      cases hc : StaticBLEMemory.allocateCore s (StaticBLEMemory.alignSize n)
          (StaticBLEMemory.getOptimalPool (StaticBLEMemory.alignSize n)) with
      | none => rfl
      | some r =>
        rw [hc] at h
        cases r with
        | mk ptr s1 => simp at h

/-- Witness for C7: a failing allocate (zero-size request) leaves the
initialized allocator state unchanged. -/
theorem C7_bounded_capacity_witness :
    (StaticBLEMemory.allocate StaticBLEMemory.initState 0).2 = StaticBLEMemory.initState :=
  C7_bounded_capacity.2.2 StaticBLEMemory.initState 0 (by decide)

/-- C10: for every arena and every allocate/deallocate sequence, the
arena's used byte counter is monotonically non-decreasing (deallocate
never decreases it - freed bytes stay counted and are reusable only
through the free list); the counter returns to 0 via resetPool, and
shutdown (which resets every pool) zeroes it. -/
theorem C10_used_monotone :
    (∀ (ops : List StaticBLEMemory.AllocOp) (s : StaticBLEMemory.AllocState)
        (i : StaticBLEMemory.PoolIdx),
        (s.pools i).used ≤ ((StaticBLEMemory.runOps s ops).pools i).used)
  ∧ (∀ p : StaticBLEMemory.PoolManager, (StaticBLEMemory.resetPool p).used = 0)
  ∧ (∀ (s : StaticBLEMemory.AllocState) (i : StaticBLEMemory.PoolIdx),
        s.inited = true → ((StaticBLEMemory.shutdown s).pools i).used = 0) := by
  refine ⟨fun ops s i => runOps_used_mono ops s i, fun p => rfl,
    fun s i h => ?_⟩
  unfold StaticBLEMemory.shutdown
  rw [if_neg (by simp [h])]
  rfl

/-- Witness for C10: shutting down the initialized allocator zeroes the
connection arena's used counter. -/
theorem C10_used_monotone_witness :
    ((StaticBLEMemory.shutdown StaticBLEMemory.initState).pools 0).used = 0 :=
  C10_used_monotone.2.2 StaticBLEMemory.initState 0 (by decide)
